import Mathlib

/- Shallow embedding of the Replai-Train scripts (downscale.py, download_data.py,
   train.py, extract_images.py) together with proofs about their behaviour.
   Interaction with the outside world (subprocess results, HTTP responses, the
   file system) is passed in explicitly as world records; Python exceptions are
   modelled as values of an error type carried through Except. -/

/-- Python exceptions that the modelled code can raise. -/
inductive PyExc where
  | keyError (k : String)
  | fileNotFound (msg : String)
  | unboundLocal (name : String)
  | runtimeError (msg : String)
  | calledProcessError
  | requestException
  | jsonDecodeError
  | badZipFile
deriving DecidableEq

instance {ε α : Type} [DecidableEq ε] [DecidableEq α] : DecidableEq (Except ε α) := fun a b =>
  match a, b with
  | Except.error e, Except.error f =>
      if h : e = f then Decidable.isTrue (by rw [h])
      else Decidable.isFalse (fun hc => h (Except.error.injEq .. ▸ hc))
  | Except.error _, Except.ok _ => Decidable.isFalse (fun hc => Except.noConfusion hc)
  | Except.ok _, Except.error _ => Decidable.isFalse (fun hc => Except.noConfusion hc)
  | Except.ok x, Except.ok y =>
      if h : x = y then Decidable.isTrue (by rw [h])
      else Decidable.isFalse (fun hc => h (Except.ok.injEq .. ▸ hc))

/- ===================== downscale.py ===================== -/

/-- Even-width adjustment in downscale.py: if target_w % 2 != 0 then target_w += 1. -/
def forceEven (n : Nat) : Nat := if n % 2 ≠ 0 then n + 1 else n

/-- downscale.py lines 70-76: target_h = 720, aspect_ratio = orig_w / orig_h,
    target_w = int(target_h * aspect_ratio), forced even. Python truncation of a
    nonnegative float is modelled as the floor of the exact rational value. -/
def computeTargetDims (orig_w orig_h : Nat) : Nat × Nat :=
  let aspect_ratio : ℚ := (orig_w : ℚ) / (orig_h : ℚ)
  let target_w : Nat := Nat.floor ((720 : ℚ) * aspect_ratio)
  (forceEven target_w, 720)

/-- The environment a run of downscale_to_720p_hevc observes: whether ffmpeg
    resolves on PATH, whether the input file exists, the ffprobe outcome
    (RuntimeError message, or the probed width and height), and the ffmpeg
    exit code. -/
structure DSWorld where
  ffmpegFound : Bool
  inputExists : Bool
  probe : Except String (Nat × Nat)
  ffmpegExit : Nat
deriving DecidableEq

/-- Observable side effects of a downscale run. -/
structure DSObs where
  warnedProbe : Bool
  target : Option (Nat × Nat)
  transcoderInvoked : Bool
deriving DecidableEq

structure DSOutcome where
  result : Except PyExc Unit
  obs : DSObs
deriving DecidableEq

/-- downscale.py, downscale_to_720p_hevc. On probe failure the except branch
    logs a warning and sets target_w, target_h = 1280, 720; the very next
    statement formats orig_w and orig_h into the scaling log line, but those
    locals were only assigned inside the try branch, so on the failure path the
    f-string raises UnboundLocalError before ffmpeg is ever invoked. -/
def downscale_to_720p_hevc (w : DSWorld) : DSOutcome :=
  if ¬ w.ffmpegFound then
    ⟨Except.error (PyExc.fileNotFound "FFmpeg not found"), ⟨false, none, false⟩⟩
  else if ¬ w.inputExists then
    ⟨Except.error (PyExc.fileNotFound "Input file does not exist"), ⟨false, none, false⟩⟩
  else
    match w.probe with
    | Except.error _ =>
        ⟨Except.error (PyExc.unboundLocal "orig_w"), ⟨true, some (1280, 720), false⟩⟩
    | Except.ok (orig_w, orig_h) =>
        let t := computeTargetDims orig_w orig_h
        if w.ffmpegExit = 0 then
          ⟨Except.ok (), ⟨false, some t, true⟩⟩
        else
          ⟨Except.error PyExc.calledProcessError, ⟨false, some t, true⟩⟩

/-- Rendering of the C2 spec sentence for comparison with computeTargetDims:
    target width equal to round(720 * w/h), forced up to an even number. -/
def specRoundTargetDims (orig_w orig_h : Nat) : Nat × Nat :=
  let r : Nat := (round ((720 : ℚ) * orig_w / orig_h)).toNat
  (forceEven r, 720)

/-- The rational floor in computeTargetDims is plain natural division. -/
theorem computeTargetDims_eq (orig_w orig_h : Nat) :
    computeTargetDims orig_w orig_h = (forceEven ((720 * orig_w) / orig_h), 720) := by
  unfold computeTargetDims
  have hcast : (720 : ℚ) * ((orig_w : ℚ) / (orig_h : ℚ))
      = ((720 * orig_w : ℕ) : ℚ) / ((orig_h : ℕ) : ℚ) := by
    push_cast
    ring
  simp only [hcast, Nat.floor_div_nat, Nat.floor_natCast]

/-- Claim C1: the spec says that when the dimension probe fails, the downscaler
    logs a warning, falls back to 1280x720 and proceeds to invoke the transcoder
    without raising. The code does warn and set the fallback target, but then
    raises UnboundLocalError at the scaling log line (orig_w is unbound on the
    failure path), so the transcoder is never invoked and the whole operation
    fails. Evaluated here at a concrete world whose probe raises. -/
theorem C1_probe_failure_raises :
    downscale_to_720p_hevc ⟨true, true, Except.error "probe failed", 0⟩ =
      ⟨Except.error (PyExc.unboundLocal "orig_w"), ⟨true, some (1280, 720), false⟩⟩ := by
  rfl

/-- Claim C2 as stated is false: at original dimensions 23x1000 the code
    truncates 720 * 23/1000 = 16.56 to 16, which is already even, while the
    claimed formula rounds to 17 and forces it up to 18. -/
theorem C2_round_counterexample :
    (computeTargetDims 23 1000).1 ≠ (specRoundTargetDims 23 1000).1 := by
  rw [computeTargetDims_eq]
  have hr : round ((720 : ℚ) * 23 / 1000) = 17 := by
    rw [round_eq]
    norm_num
  simp [specRoundTargetDims, hr, forceEven]

/-- Claim C2 amended: for every successfully probed input with height h > 0 the
    downscaler uses target height 720 and target width int(720 * w/h), that is
    the truncated (not rounded) value, forced up to an even number; in
    particular (1920,1080) yields (1280,720), and (1079,608) yields width
    1277 + 1 = 1278, the truncated value raised to the next even number. -/
theorem C2_truncate_even_width (w : DSWorld) (orig_w orig_h : Nat)
    (hff : w.ffmpegFound = true) (hin : w.inputExists = true)
    (hpr : w.probe = Except.ok (orig_w, orig_h)) (hh : 0 < orig_h) :
    (downscale_to_720p_hevc w).obs.target
        = some (forceEven ((720 * orig_w) / orig_h), 720)
    ∧ computeTargetDims 1920 1080 = (1280, 720)
    ∧ computeTargetDims 1079 608 = (1278, 720)
    ∧ (720 * 1079) / 608 = 1277 := by
  refine ⟨?_, ?_, ?_, by norm_num⟩
  · unfold downscale_to_720p_hevc
    rw [hff, hin, hpr]
    by_cases he : w.ffmpegExit = 0 <;>
      simp [he, computeTargetDims_eq]
  · rw [computeTargetDims_eq]
    norm_num [forceEven]
  · rw [computeTargetDims_eq]
    norm_num [forceEven]

/-- Witness for C2_truncate_even_width at the probe result (1920,1080). -/
theorem C2_truncate_even_width_witness :
    (downscale_to_720p_hevc ⟨true, true, Except.ok (1920, 1080), 0⟩).obs.target
      = some (1280, 720) := by
  have h := (C2_truncate_even_width ⟨true, true, Except.ok (1920, 1080), 0⟩
    1920 1080 rfl rfl rfl (by norm_num)).1
  rw [h]
  norm_num [forceEven]

/- ===================== download_data.py ===================== -/

/-- The required settings keys of download_dataset, in source order. -/
def requiredKeys : List String := ["api_key", "workspace", "project", "version", "format"]

/-- Lookup in a Python dict of string values, modelled as an association list. -/
def lookupStr : List (String × String) → String → Option String
  | [], _ => none
  | (k1, v1) :: rest, k => if k1 = k then some v1 else lookupStr rest k

/-- missing = [k for k in required_keys if k not in settings]. -/
def missingKeys (settings : List (String × String)) : List String :=
  requiredKeys.filter fun k => (lookupStr settings k).isNone

/-- Result of the primary Roboflow download: the dataset location together with
    what the file system shows there afterwards. -/
structure PrimaryResult where
  location : String
  locationExists : Bool
  files : List String
deriving DecidableEq

/-- The export-info HTTP response: its status code and the outcome of parsing
    its body for data.export.link (resp.json can itself raise). -/
structure ApiResponse where
  status : Nat
  jsonExportLink : Except PyExc (Option String)
deriving DecidableEq

structure ZipResponse where
  status : Nat
deriving DecidableEq

/-- The environment a run of download_dataset observes: the outcome of the
    primary client download, of the two HTTP requests of the fallback, and of
    the zip extraction. -/
structure DLWorld where
  primary : Except PyExc PrimaryResult
  exportInfoReq : Except PyExc ApiResponse
  zipReq : Except PyExc ZipResponse
  extractAll : Except PyExc Unit
deriving DecidableEq

inductive DLErr where
  | valueError (missing : List String)
  | exc (e : PyExc)
deriving DecidableEq

structure DLOutcome where
  result : Except DLErr String
  rfInitialized : Bool
  fallbackAttempts : Nat
deriving DecidableEq

/-- download_data.py lines 65-101, the manual download fallback. Failures that
    the code checks for (a non-200 status, a missing export link) are logged and
    fall through; nothing catches exceptions raised by the requests calls, by
    resp.json or by the zip extraction, so those propagate. -/
def roboflowFallback (w : DLWorld) : Except PyExc Unit :=
  match w.exportInfoReq with
  | Except.error e => Except.error e
  | Except.ok resp =>
      if resp.status = 200 then
        match resp.jsonExportLink with
        | Except.error e => Except.error e
        | Except.ok (some _) =>
            match w.zipReq with
            | Except.error e => Except.error e
            | Except.ok zipResp =>
                if zipResp.status = 200 then w.extractAll
                else Except.ok ()
        | Except.ok none => Except.ok ()
      else Except.ok ()

/-- download_data.py, download_dataset: validate the required keys, run the
    primary download, inspect the resulting directory, run the fallback exactly
    when the directory exists but is empty, and return dataset.location. -/
def download_dataset (settings : List (String × String)) (w : DLWorld) : DLOutcome :=
  if missingKeys settings ≠ [] then
    ⟨Except.error (DLErr.valueError (missingKeys settings)), false, 0⟩
  else
    match w.primary with
    | Except.error e => ⟨Except.error (DLErr.exc e), true, 0⟩
    | Except.ok pr =>
        if pr.locationExists then
          if pr.files = [] then
            match roboflowFallback w with
            | Except.ok _ => ⟨Except.ok pr.location, true, 1⟩
            | Except.error e => ⟨Except.error (DLErr.exc e), true, 1⟩
          else ⟨Except.ok pr.location, true, 0⟩
        else ⟨Except.ok pr.location, true, 0⟩

/-- A complete settings mapping used by several concrete evaluations. -/
def settingsOk : List (String × String) :=
  [("api_key", "key"), ("workspace", "ws"), ("project", "proj"),
   ("version", "3"), ("format", "yolov11")]

/-- World in which the fallback runs and its zip extraction raises BadZipFile. -/
def badZipWorld : DLWorld :=
  ⟨Except.ok ⟨"/data/ds", true, []⟩,
   Except.ok ⟨200, Except.ok (some "link")⟩,
   Except.ok ⟨200⟩,
   Except.error PyExc.badZipFile⟩

/-- Claim C3 as stated is false: the fallback path has no exception handler, so
    when the zip extraction step fails by raising, the exception escapes
    download_dataset instead of being logged, and the original location is not
    returned. Concrete run: empty download directory, export info and zip fetch
    succeed, extraction raises BadZipFile. -/
theorem C3_zip_extraction_raises :
    (download_dataset settingsOk badZipWorld).result
        = Except.error (DLErr.exc PyExc.badZipFile)
    ∧ (download_dataset settingsOk badZipWorld).fallbackAttempts = 1 := by
  exact ⟨rfl, rfl⟩

/-- Claim C3 amended: fallback failures that the code detects by inspecting
    values — a non-200 status on either request or a missing export link — are
    logged but do not raise, and download_dataset still returns the original
    dataset location; only fallback steps that raise exceptions (network
    errors, body parsing, zip extraction) propagate. Formally: whenever the
    fallback is triggered and no fallback step raises, the function returns the
    original location whatever the statuses and link lookup said. -/
theorem C3_besteffort_status_failures (settings : List (String × String)) (w : DLWorld)
    (pr : PrimaryResult) (resp : ApiResponse) (zr : ZipResponse)
    (hmk : missingKeys settings = [])
    (hpr : w.primary = Except.ok pr) (hex : pr.locationExists = true)
    (hfl : pr.files = [])
    (hresp : w.exportInfoReq = Except.ok resp)
    (hjson : ∃ olink, resp.jsonExportLink = Except.ok olink)
    (hzip : w.zipReq = Except.ok zr)
    (hext : w.extractAll = Except.ok ()) :
    (download_dataset settings w).result = Except.ok pr.location
    ∧ (download_dataset settings w).fallbackAttempts = 1 := by
  obtain ⟨olink, holink⟩ := hjson
  have hfb : roboflowFallback w = Except.ok () := by
    by_cases h200 : resp.status = 200 <;>
      cases olink <;>
      by_cases hz200 : zr.status = 200 <;>
      simp [roboflowFallback, hresp, holink, hzip, h200, hz200, hext]
  simp [download_dataset, hmk, hpr, hex, hfl, hfb]

/-- Witness for C3_besteffort_status_failures: the export-info request comes
    back with status 500; the fallback is logged as failed, nothing raises, and
    the original location is returned. -/
theorem C3_besteffort_status_failures_witness :
    (download_dataset settingsOk
        ⟨Except.ok ⟨"/data/ds", true, []⟩, Except.ok ⟨500, Except.ok none⟩,
         Except.ok ⟨200⟩, Except.ok ()⟩).result = Except.ok "/data/ds" := by
  exact (C3_besteffort_status_failures settingsOk
    ⟨Except.ok ⟨"/data/ds", true, []⟩, Except.ok ⟨500, Except.ok none⟩,
     Except.ok ⟨200⟩, Except.ok ()⟩
    ⟨"/data/ds", true, []⟩ ⟨500, Except.ok none⟩ ⟨200⟩
    rfl rfl rfl rfl rfl ⟨none, rfl⟩ rfl rfl).1

/-- World in which the fallback runs and its first HTTP request raises a
    connection error. -/
def connErrorWorld : DLWorld :=
  ⟨Except.ok ⟨"/data/ds", true, []⟩,
   Except.error PyExc.requestException,
   Except.ok ⟨200⟩,
   Except.ok ()⟩

/-- Claim C4 as stated is false on its final clause: when the export-info
    request of the fallback raises, download_dataset propagates the exception
    instead of returning the original target directory path, so the function
    does not return the path regardless of the fallback outcome. The fallback
    was still attempted exactly once. -/
theorem C4_fallback_exception_escapes :
    (download_dataset settingsOk connErrorWorld).result
        = Except.error (DLErr.exc PyExc.requestException)
    ∧ (download_dataset settingsOk connErrorWorld).fallbackAttempts = 1 := by
  exact ⟨rfl, rfl⟩

/-- Claim C4 amended: with valid settings and a successful primary download,
    the fallback is attempted exactly once when the target directory exists and
    is empty and zero times otherwise; the function returns the original
    location whenever the fallback is skipped, and also whenever the attempted
    fallback does not raise; an exception raised inside the fallback propagates
    instead. -/
theorem C4_fallback_exactly_once (settings : List (String × String)) (w : DLWorld)
    (pr : PrimaryResult)
    (hmk : missingKeys settings = []) (hpr : w.primary = Except.ok pr) :
    (download_dataset settings w).fallbackAttempts
        = (if pr.locationExists && pr.files.isEmpty then 1 else 0)
    ∧ (pr.locationExists = false ∨ pr.files ≠ [] →
        (download_dataset settings w).result = Except.ok pr.location)
    ∧ (roboflowFallback w = Except.ok () →
        (download_dataset settings w).result = Except.ok pr.location) := by
  unfold download_dataset
  rw [hpr]
  simp only [hmk]
  refine ⟨?_, ?_, ?_⟩
  · by_cases he : pr.locationExists <;>
      by_cases hf : pr.files = [] <;>
      rcases hfb : roboflowFallback w with e | u <;>
      simp [he, hf, hfb, List.isEmpty_iff]
  · rintro (he | hf)
    · simp [he]
    · by_cases he : pr.locationExists <;> simp [he, hf]
  · intro hfb
    by_cases he : pr.locationExists <;>
      by_cases hf : pr.files = [] <;>
      simp [he, hf, hfb]

/-- Witness for C4_fallback_exactly_once: a non-empty download directory, so
    the fallback is attempted zero times and the location is returned. -/
theorem C4_fallback_exactly_once_witness :
    (download_dataset settingsOk
        ⟨Except.ok ⟨"/data/ds", true, ["a.jpg"]⟩, Except.ok ⟨200, Except.ok none⟩,
         Except.ok ⟨200⟩, Except.ok ()⟩).fallbackAttempts = 0 := by
  have h := (C4_fallback_exactly_once settingsOk
    ⟨Except.ok ⟨"/data/ds", true, ["a.jpg"]⟩, Except.ok ⟨200, Except.ok none⟩,
     Except.ok ⟨200⟩, Except.ok ()⟩
    ⟨"/data/ds", true, ["a.jpg"]⟩ rfl rfl).1
  rw [h]
  rfl

/-- Claim C7: with one or more required keys absent, download_dataset raises a
    ValueError carrying exactly the missing keys — a key is in the reported
    list iff it is a required key absent from the settings — and neither the
    Roboflow client nor the fallback is ever touched. -/
theorem C7_missing_keys_no_network (settings : List (String × String)) (w : DLWorld)
    (h : missingKeys settings ≠ []) :
    (download_dataset settings w).result
        = Except.error (DLErr.valueError (missingKeys settings))
    ∧ (download_dataset settings w).rfInitialized = false
    ∧ (download_dataset settings w).fallbackAttempts = 0
    ∧ ∀ k, k ∈ missingKeys settings ↔ k ∈ requiredKeys ∧ lookupStr settings k = none := by
  refine ⟨?_, ?_, ?_, ?_⟩
  · simp [download_dataset, h]
  · simp [download_dataset, h]
  · simp [download_dataset, h]
  · intro k
    simp [missingKeys, List.mem_filter, Option.isNone_iff_eq_none]

/-- Witness for C7_missing_keys_no_network: a settings mapping missing only the
    workspace key. -/
theorem C7_missing_keys_no_network_witness :
    (download_dataset
        [("api_key", "key"), ("project", "proj"), ("version", "3"), ("format", "yolov11")]
        badZipWorld).result
      = Except.error (DLErr.valueError ["workspace"]) := by
  have h := (C7_missing_keys_no_network
    [("api_key", "key"), ("project", "proj"), ("version", "3"), ("format", "yolov11")]
    badZipWorld (by decide)).1
  rw [h]
  rfl

/- ===================== train.py ===================== -/

/-- JSON values as loaded by json.load, restricted to the shapes the settings
    machinery touches. Python None (JSON null) is a first-class value, distinct
    from an absent key. -/
inductive JVal where
  | null
  | bool (b : Bool)
  | num (n : Int)
  | str (s : String)
  | obj (fields : List (String × JVal))

/-- Lookup in a Python dict of JSON values, modelled as an association list. -/
def dlookup : List (String × JVal) → String → Option JVal
  | [], _ => none
  | (k1, v1) :: rest, k => if k1 = k then some v1 else dlookup rest k

/-- Python dict assignment d[k] = v: replace the binding if the key is present,
    append it otherwise. -/
def dset : List (String × JVal) → String → JVal → List (String × JVal)
  | [], k, v => [(k, v)]
  | (k1, v1) :: rest, k, v =>
      if k1 = k then (k, v) :: rest else (k1, v1) :: dset rest k v

/-- Python dict.update: fold the new bindings over the base dict. -/
def dupdate (base new : List (String × JVal)) : List (String × JVal) :=
  new.foldl (fun acc kv => dset acc kv.1 kv.2) base

/-- train.py DEFAULT_SETTINGS: a flat mapping, with no nested train or export
    section. -/
def DEFAULT_SETTINGS : List (String × JVal) :=
  [("model", JVal.str "yolo11n.pt"), ("data", JVal.str "data.yaml"),
   ("epochs", JVal.num 100), ("val", JVal.bool true), ("plots", JVal.bool true),
   ("seed", JVal.num 42), ("patience", JVal.num 10), ("imgsz", JVal.num 640),
   ("batch", JVal.num 16), ("freeze", JVal.num 10), ("save", JVal.bool true),
   ("cache", JVal.str "disk"), ("device", JVal.str "0"),
   ("pretrained", JVal.bool true), ("project", JVal.str "runs/train"),
   ("name", JVal.str "yolo11n_finetune")]

/-- The state of the settings file as seen by load_or_create_settings: absent,
    present but undecodable (json.load raises JSONDecodeError), or present with
    a parsed object content. -/
inductive SettingsFile where
  | absent
  | malformed
  | valid (content : List (String × JVal))

/-- What load_or_create_settings produced and did. -/
structure LoadResult where
  settings : List (String × JVal)
  createdFile : Bool
  loggedDecodeError : Bool

/-- train.py load_or_create_settings: write and return the defaults when the
    file is absent; on JSONDecodeError log an error and return a fresh copy of
    the defaults, ignoring the file; otherwise merge the loaded content over a
    copy of the defaults. Total — it never raises. -/
def load_or_create_settings : SettingsFile → LoadResult
  | SettingsFile.absent => ⟨DEFAULT_SETTINGS, true, false⟩
  | SettingsFile.malformed => ⟨DEFAULT_SETTINGS, false, true⟩
  | SettingsFile.valid content => ⟨dupdate DEFAULT_SETTINGS content, false, false⟩

/-- Python subscript d[k] on a dict: the value, or a raised KeyError. -/
def pySubscript (d : List (String × JVal)) (k : String) : Except PyExc JVal :=
  match dlookup d k with
  | some v => Except.ok v
  | none => Except.error (PyExc.keyError k)

/-- train.py main, step 1: the two full-file loads indexed by the top-level
    train and export sections. -/
def mainLoadSettings (fs : SettingsFile) : Except PyExc (JVal × JVal) := do
  let t ← pySubscript (load_or_create_settings fs).settings "train"
  let e ← pySubscript (load_or_create_settings fs).settings "export"
  pure (t, e)

/-- Claim C5: the spec says that with an absent settings file the driver
    creates it with the defaults and proceeds to model initialization and
    training. The code does create the file with DEFAULT_SETTINGS, but that
    mapping is flat and has no train section, so the immediately following
    subscript raises KeyError train and the driver never reaches model
    initialization. -/
theorem C5_absent_settings_keyerror :
    (load_or_create_settings SettingsFile.absent).createdFile = true
    ∧ mainLoadSettings SettingsFile.absent = Except.error (PyExc.keyError "train") := by
  exact ⟨rfl, rfl⟩

/-- The export kwarg keys read from export_settings inside the try block of
    the export step, in evaluation order. -/
def exportArgKeys : List String :=
  ["task", "imgsz", "batch", "half", "nms", "dynamic", "int8", "data"]

/-- First key of ks missing from the dict es, if any. -/
def firstMissingKey (es : List (String × JVal)) : List String → Option String
  | [] => none
  | k :: ks => if (dlookup es k).isNone then some k else firstMissingKey es ks

/-- train.py main, step 4. Inside try, the export kwargs are read from
    export_settings (raising KeyError on a missing key) and then model.export
    runs, which may itself raise. The except handler formats
    the export entry of export_settings into its log message, so when that key
    is absent
    the handler raises KeyError instead of swallowing the failure. -/
def exportStep (exportRequested : Bool) (export_settings : List (String × JVal))
    (exportRaises : Bool) : Except PyExc Unit :=
  if exportRequested then
    let tryResult : Except PyExc Unit :=
      match firstMissingKey export_settings exportArgKeys with
      | some k => Except.error (PyExc.keyError k)
      | none =>
          if exportRaises then Except.error (PyExc.runtimeError "export failed")
          else Except.ok ()
    match tryResult with
    | Except.ok _ => Except.ok ()
    | Except.error _ =>
        match dlookup export_settings "export" with
        | some _ => Except.ok ()
        | none => Except.error (PyExc.keyError "export")
  else Except.ok ()

/-- An export section holding every kwarg key the export call reads, and no
    key named export — the shape the rest of train.py expects. -/
def exportSettingsExample : List (String × JVal) :=
  [("task", JVal.str "detect"), ("imgsz", JVal.num 640), ("batch", JVal.num 16),
   ("half", JVal.bool true), ("nms", JVal.bool false),
   ("dynamic", JVal.bool false), ("int8", JVal.bool false),
   ("data", JVal.str "data.yaml")]

/-- Claim C6: the spec says an export failure is logged and swallowed and
    control always reaches the run-record-writing step, whatever the export
    settings hold. In the code the except handler itself subscripts
    export_settings with the key export; with an export section of the expected
    shape (which has no such key) and a failing export call, the handler raises
    KeyError and the run record is never written. -/
theorem C6_handler_keyerror :
    exportStep true exportSettingsExample true = Except.error (PyExc.keyError "export") := by
  rfl

/-- dict assignment followed by lookup of the same key yields the new value. -/
theorem dlookup_dset_self (d : List (String × JVal)) (k : String) (v : JVal) :
    dlookup (dset d k v) k = some v := by
  induction d with
  | nil => simp [dset, dlookup]
  | cons kv rest ih =>
      obtain ⟨k1, v1⟩ := kv
      by_cases h : k1 = k <;> simp [dset, dlookup, h, ih]

/-- train_settings.get of a key is Python None exactly when the key is absent
    or bound to JSON null. -/
def getIsNone (d : List (String × JVal)) (k : String) : Bool :=
  match dlookup d k with
  | none => true
  | some JVal.null => true
  | some _ => false

/-- Outcome of the freeze enforcement step of train.py main. -/
structure FreezeResult where
  train_settings : List (String × JVal)
  warned : Bool

/-- train.py main lines 87-89: if train_settings.get of freeze is None, warn
    and set it to 10. -/
def enforceFreeze (ts : List (String × JVal)) : FreezeResult :=
  if getIsNone ts "freeze" then ⟨dset ts "freeze" (JVal.num 10), true⟩
  else ⟨ts, false⟩

/-- Claim C9: whenever the train section lacks the freeze key or maps it to
    null, the driver proceeds with freeze set to 10 and logs a warning; the
    enforcement step is total and never raises. -/
theorem C9_freeze_default (ts : List (String × JVal))
    (h : dlookup ts "freeze" = none ∨ dlookup ts "freeze" = some JVal.null) :
    dlookup (enforceFreeze ts).train_settings "freeze" = some (JVal.num 10)
    ∧ (enforceFreeze ts).warned = true := by
  have hb : getIsNone ts "freeze" = true := by
    rcases h with h | h <;> simp [getIsNone, h]
  simp [enforceFreeze, hb, dlookup_dset_self]

/-- Witness for C9_freeze_default: a train section with no freeze key. -/
theorem C9_freeze_default_witness :
    dlookup (enforceFreeze [("model", JVal.str "yolo11n.pt")]).train_settings "freeze"
      = some (JVal.num 10) := by
  exact (C9_freeze_default [("model", JVal.str "yolo11n.pt")] (Or.inl rfl)).1

/-- Claim C10: on a settings file that exists but holds malformed JSON,
    load_or_create_settings does not raise (it is total), logs a decode error,
    does not rewrite the file, and returns exactly the built-in defaults with
    no content merged in. -/
theorem C10_malformed_returns_defaults :
    load_or_create_settings SettingsFile.malformed
      = ⟨DEFAULT_SETTINGS, false, true⟩ := by
  rfl

/- ===================== extract_images.py ===================== -/

/-- What one video contributes to a run of extract_frames_gpu: the ffmpeg exit
    code of its transcode, and the sorted temporary frames it produced. -/
structure VideoResult where
  returncode : Nat
  frames : List String
deriving DecidableEq

/-- Number of frames a video contributes: zero when its transcode failed,
    otherwise however many temporary frames ffmpeg wrote. -/
def videoFrameCount (v : VideoResult) : Nat :=
  if v.returncode ≠ 0 then 0 else v.frames.length

def totalFrames (videos : List VideoResult) : Nat :=
  (videos.map videoFrameCount).sum

/-- The loop state of extract_frames_gpu: the frame numbers already moved into
    the output directory in order, frame_counter and success_count. -/
structure ExtractState where
  moved : List Nat
  frame_counter : Nat
  success_count : Nat
deriving DecidableEq

/-- extract_images.py, one iteration of the video loop: skip on a nonzero
    ffmpeg exit, skip when no frames were extracted, otherwise move every
    temporary frame to the next global frame numbers. -/
def processVideo (st : ExtractState) (v : VideoResult) : ExtractState :=
  if v.returncode ≠ 0 then st
  else if v.frames = [] then st
  else
    ⟨st.moved ++ List.range' st.frame_counter v.frames.length,
     st.frame_counter + v.frames.length,
     st.success_count + 1⟩

/-- extract_images.py, extract_frames_gpu: return early (none) when the input
    directory is missing, the output directory cannot be created or no MP4
    files were found; otherwise run the loop from frame_counter = 1. -/
def extract_frames_gpu (inputExists mkdirOk : Bool) (videos : List VideoResult) :
    Option ExtractState :=
  if ¬ inputExists then none
  else if ¬ mkdirOk then none
  else if videos = [] then none
  else some (videos.foldl processVideo ⟨[], 1, 0⟩)

/-- Unfolding of the video loop from an arbitrary state: the moved frames grow
    by one contiguous block of numbers starting at the current counter. -/
theorem foldl_processVideo (videos : List VideoResult) (st : ExtractState) :
    videos.foldl processVideo st =
      ⟨st.moved ++ List.range' st.frame_counter (totalFrames videos),
       st.frame_counter + totalFrames videos,
       st.success_count + (videos.countP fun v => v.returncode == 0 && !v.frames.isEmpty)⟩ := by
  induction videos generalizing st with
  | nil => simp [totalFrames]
  | cons v vs ih =>
      rw [List.foldl_cons, ih]
      by_cases h0 : v.returncode = 0
      · by_cases hf : v.frames = []
        · simp [processVideo, totalFrames, videoFrameCount, h0, hf, List.countP_cons]
        · have hmov : st.moved ++ List.range' st.frame_counter v.frames.length
              ++ List.range' (st.frame_counter + v.frames.length) (totalFrames vs)
              = st.moved ++ List.range' st.frame_counter (v.frames.length + totalFrames vs) := by
            rw [List.append_assoc, List.range'_append_1, Nat.add_comm (totalFrames vs)]
          simp only [processVideo, totalFrames, videoFrameCount, h0, hf,
            List.map_cons, List.sum_cons, List.countP_cons, if_neg hf, ite_not]
          simp [h0, hf, hmov, Nat.add_assoc, Nat.add_comm 1]
          omega
      · simp [processVideo, totalFrames, videoFrameCount, h0, List.countP_cons,
          Nat.add_assoc]

/-- Claim C8: across a batch of videos the extractor moves exactly the sum of
    the per-video frame counts into the output directory, numbered by one
    global counter as the contiguous block 1, 2, ..., total with no gaps and no
    per-video resets; a video whose transcode fails contributes zero frames and
    the loop continues past it. -/
theorem C8_global_contiguous_numbering (videos : List VideoResult)
    (hne : videos ≠ []) :
    extract_frames_gpu true true videos =
      some ⟨List.range' 1 (totalFrames videos),
            1 + totalFrames videos,
            videos.countP fun v => v.returncode == 0 && !v.frames.isEmpty⟩
    ∧ (List.range' 1 (totalFrames videos)).length = totalFrames videos
    ∧ ∀ v ∈ videos, v.returncode ≠ 0 → videoFrameCount v = 0 := by
  refine ⟨?_, by simp, ?_⟩
  · simp only [extract_frames_gpu, hne]
    rw [foldl_processVideo]
    simp
  · intro v _ hv
    simp [videoFrameCount, hv]

/-- Witness for C8_global_contiguous_numbering: three videos of which the
    second fails to transcode; five frames total, numbered 1 to 5, two
    successful videos. -/
theorem C8_global_contiguous_numbering_witness :
    extract_frames_gpu true true
        [⟨0, ["a1", "a2"]⟩, ⟨1, ["junk"]⟩, ⟨0, ["b1", "b2", "b3"]⟩]
      = some ⟨[1, 2, 3, 4, 5], 6, 2⟩ := by
  have h := (C8_global_contiguous_numbering
    [⟨0, ["a1", "a2"]⟩, ⟨1, ["junk"]⟩, ⟨0, ["b1", "b2", "b3"]⟩] (by decide)).1
  rw [h]
  rfl
